import Mathlib

/-!
Shallow embedding of the `inferloop-ai/test-agent` repository:
the model selector and tool-support check (`src/agents/llm_detector.py`),
the agent loop graph built by `src/agents/graph_agent.py`,
the chart tool (`src/tools/data_tools.py`), and the websocket chat
handler (`src/web_app.py`).

External effects (environment variables, HTTP reachability, the
filesystem, the model client) are passed in as explicit parameters or
oracles; the control flow of each embedded function follows the Python
source line by line.
-/

namespace TestAgent

/-- Python `s.startswith(pre)`: `pre` is a prefix of `s` (case-sensitive,
exact character comparison). -/
def pyStartswith (s pre : String) : Bool :=
  pre.data.isPrefixOf s.data

/-- Python `s.split(":")[0]`: the portion of `s` strictly before the first
`':'` (the whole string when no `':'` occurs). -/
def splitColonHead (s : String) : String :=
  ⟨s.data.takeWhile (fun c => c ≠ ':')⟩

/-- Python `s.split("-")[0]`: the portion of `s` strictly before the first
`'-'`. -/
def splitDashHead (s : String) : String :=
  ⟨s.data.takeWhile (fun c => c ≠ '-')⟩

/-- Python truthiness of an optional string (`os.getenv` result):
`None` and `""` are falsy, every other string is truthy. -/
def truthy : Option String → Bool
  | none => false
  | some s => !(s == "")

/-- `TOOL_CAPABLE_MODELS["ollama"]` from `llm_detector.py` lines 15-23. -/
def toolCapableOllama : List String :=
  ["llama3.1:8b", "llama3.1:70b", "llama3.1",
   "llama3.2", "llama3.2:1b", "llama3.2:3b",
   "qwen2.5:7b", "qwen2.5:14b", "qwen2.5:32b", "qwen2.5:72b",
   "mistral:7b-instruct", "mixtral:8x7b",
   "command-r:35b", "command-r-plus:104b",
   "firefunction-v2",
   "nous-hermes2:10.7b", "nous-hermes2-mixtral:8x7b"]

/-- `TOOL_CAPABLE_MODELS["openai"]` from `llm_detector.py` lines 24-27. -/
def toolCapableOpenai : List String :=
  ["gpt-4", "gpt-4-turbo", "gpt-4o", "gpt-4o-mini",
   "gpt-3.5-turbo", "gpt-3.5-turbo-0125"]

/-- `TOOL_CAPABLE_MODELS["anthropic"]` from `llm_detector.py` lines 28-31. -/
def toolCapableAnthropic : List String :=
  ["claude-3-opus-20240229", "claude-3-sonnet-20240229", "claude-3-haiku-20240307",
   "claude-2.1", "claude-2.0"]

/-- Lookup in the `TOOL_CAPABLE_MODELS` dict: `none` models a key that is
absent from the dict (notably `"azure_openai"`). -/
def toolCapableModels : String → Option (List String)
  | "ollama" => some toolCapableOllama
  | "openai" => some toolCapableOpenai
  | "anthropic" => some toolCapableAnthropic
  | _ => none

/-- `available` dict built by `detect_available_llms` (`llm_detector.py`
lines 140-164): the list of local Ollama model names plus one availability
flag per remote provider. -/
structure AvailableLLMs where
  ollama : List String
  openai : Bool
  anthropic : Bool
  azure_openai : Bool
deriving Repr, DecidableEq

/-- `select_best_model` (`llm_detector.py` lines 166-232).

Parameters standing for effects:
* `providerPref`, `modelPref` — `os.getenv("LLM_PROVIDER")` /
  `os.getenv("LLM_MODEL")` (`none` = variable unset);
* `recommendedModel` — `system_capacity.get("recommended_model", ...)`
  (`none` = key absent, in which case the Python default `"qwen2.5:7b"`
  is used);
* `canConnect` — result of `can_connect_ollama()`;
* `pullOk` — result of `pull_ollama_model` for a given model name.

Returns `none` for the Python `(None, None)` result. -/
def selectBestModel (providerPref modelPref : Option String)
    (available : AvailableLLMs) (recommendedModel : Option String)
    (preferLocal : Bool) (canConnect : Bool) (pullOk : String → Bool) :
    Option (String × String) :=
  -- lines 183-184: user override wins, no validation
  if truthy providerPref && truthy modelPref then
    some (providerPref.getD "", modelPref.getD "")
  else
    -- lines 187-196: remote providers in fixed priority order
    let remoteFirst : Option (String × String) :=
      if !preferLocal then
        if available.openai then some ("openai", "gpt-4o-mini")
        else if available.anthropic then some ("anthropic", "claude-3-haiku-20240307")
        else if available.azure_openai then some ("azure_openai", "gpt-4o-mini")
        else none
      else none
    match remoteFirst with
    | some r => some r
    | none =>
      let recommended := recommendedModel.getD "qwen2.5:7b"
      -- lines 199-215: local Ollama models
      let localPick : Option (String × String) :=
        if !available.ollama.isEmpty then
          match available.ollama.find?
              (fun m => pyStartswith m (splitColonHead recommended)) with
          | some m => some ("ollama", m)
          | none =>
            match available.ollama.find?
                (fun m => toolCapableOllama.any
                  (fun t => pyStartswith m (splitColonHead t))) with
            | some m => some ("ollama", m)
            | none => some ("ollama", available.ollama.headD "")
        else none
      match localPick with
      | some r => some r
      | none =>
        -- lines 218-221: provision the recommended model
        if available.ollama.isEmpty && canConnect && pullOk recommended then
          some ("ollama", recommended)
        -- lines 224-229: remote fallback when prefer_local was true
        else if preferLocal then
          if available.openai then some ("openai", "gpt-4o-mini")
          else if available.anthropic then some ("anthropic", "claude-3-haiku-20240307")
          else none
        -- line 232
        else none

/-- `check_tool_support` (`llm_detector.py` lines 267-275). -/
def checkToolSupport (provider modelName : String) : Bool :=
  match toolCapableModels provider with
  | none => false
  | some models =>
    if provider == "ollama" then
      models.any (fun m => pyStartswith modelName (splitColonHead m))
    else
      models.any (fun m => pyStartswith modelName (splitDashHead m))

/-- Configuration dict assembled by `get_llm_config` (the fields the
claims are about). -/
structure LLMConfig where
  provider : String
  model : String
  supportsTools : Bool
deriving Repr, DecidableEq

/-- `get_llm_config` (`llm_detector.py` lines 243-265): runs the selector
and raises `ValueError` (modelled as `Except.error`) when it yields no
provider or no model (Python `if not provider or not model`). -/
def getLLMConfig (providerPref modelPref : Option String)
    (available : AvailableLLMs) (recommendedModel : Option String)
    (preferLocal : Bool) (canConnect : Bool) (pullOk : String → Bool) :
    Except String LLMConfig :=
  match selectBestModel providerPref modelPref available recommendedModel
      preferLocal canConnect pullOk with
  | none => .error "No LLM available! Please configure API keys or install Ollama."
  | some (p, m) =>
    if p == "" || m == "" then
      .error "No LLM available! Please configure API keys or install Ollama."
    else
      .ok { provider := p, model := m, supportsTools := checkToolSupport p m }

/-- The configuration-resolution step of `build_graph`
(`graph_agent.py` lines 13-41): on any failure from `get_llm_config` it
falls back to `(os.getenv("LLM_PROVIDER", "ollama"),
os.getenv("LLM_MODEL", "qwen2.5:7b"), True)` and proceeds instead of
aborting. -/
def buildGraphConfig (llmProviderEnv llmModelEnv : Option String)
    (cfg : Except String LLMConfig) : String × String × Bool :=
  match cfg with
  | .ok c => (c.provider, c.model, c.supportsTools)
  | .error _ => (llmProviderEnv.getD "ollama", llmModelEnv.getD "qwen2.5:7b", true)

/-! ## Agent loop

`build_graph` (`graph_agent.py` lines 60-70) declares the topology:
`START → llm`, `llm → tools` when the model response carries tool-call
requests (the library's `tools_condition`), `llm → END` otherwise, and
`tools → llm`.  The step semantics of the compiled graph (message
accumulation, routing) live in the external orchestration library; they
are taken from the spec's §4.3 state machine: the model is invoked with
the full history, its response is appended, each pending tool-call
request is executed in order and yields one appended tool result, and
the cycle repeats until a response carries no tool-call request. -/

/-- A structured tool-call request inside a model response. -/
structure ToolCall where
  name : String
  args : String
  id : String
deriving Repr, DecidableEq

/-- One message of the running history. -/
structure Msg where
  role : String
  content : String
  toolCalls : List ToolCall
deriving Repr, DecidableEq

/-- The library's `tools_condition` used in `graph_agent.py` line 67:
route to the tool node exactly when the last response carries at least
one tool-call request. -/
def toolsCondition (resp : Msg) : Bool :=
  !resp.toolCalls.isEmpty

/-- Fuel-bounded run of the agent loop built by `build_graph`.

`model` is the bound model client (one response per invocation on the
full history), `execTool` executes one tool-call request and produces
its tool-result message.  Returns `some (history, modelCalls)` when the
loop reaches the terminal state within `fuel` model invocations, and
`none` when it is still cycling through the model/tools nodes after
`fuel` invocations.  The graph itself carries no iteration cap, so the
fuel is an observation bound of the embedding, not part of the code. -/
def runLoop : Nat → (List Msg → Msg) → (ToolCall → Msg) → List Msg →
    Option (List Msg × Nat)
  | 0, _, _, _ => none
  | fuel + 1, model, execTool, hist =>
    let resp := model hist
    let hist' := hist ++ [resp]
    if toolsCondition resp then
      match runLoop fuel model execTool (hist' ++ resp.toolCalls.map execTool) with
      | none => none
      | some (h, k) => some (h, k + 1)
    else
      some (hist', 1)

/-- A model stub that always requests a tool (the spec's §8 stub for the
iteration-limit property). -/
def alwaysToolModel : List Msg → Msg :=
  fun _ => { role := "assistant", content := "calling a tool",
             toolCalls := [{ name := "profile_table", args := "\x7b\x7d", id := "call-1" }] }

/-- A trivial tool executor for concrete runs. -/
def stubExecTool : ToolCall → Msg :=
  fun _ => { role := "tool", content := "ok", toolCalls := [] }

/-- A model stub that answers without any tool-call request. -/
def noToolModel : List Msg → Msg :=
  fun _ => { role := "assistant", content := "done", toolCalls := [] }

/-- A concrete initial user message for concrete runs. -/
def userMsg : Msg :=
  { role := "user", content := "hi", toolCalls := [] }

/-! ## Chart tool (`src/tools/data_tools.py`) -/

/-- The part of a parsed dataframe the chart tool inspects: its column
names. -/
structure CsvTable where
  columns : List String
deriving Repr, DecidableEq

/-- Error taxonomy of the chart tool, named as in the spec's §7. -/
inductive ChartErr where
  | fileNotFound (file : String)
  | columnNotFound (column : String)
  | ioError (path : String)
deriving Repr, DecidableEq

/-- Python `os.path.join(dir, name)` for the shapes that occur here:
an absolute `name` discards `dir`; otherwise a single separator is
inserted unless `dir` already ends with one. -/
def pyPathJoin (dir name : String) : String :=
  if pyStartswith name "/" then name
  else if dir == "" then name
  else if dir.data.getLast? == some '/' then dir ++ name
  else dir ++ "/" ++ name

/-- `_ensure_outputs_path` (`data_tools.py` lines 5-9): resolve
`OUTPUT_DIR` (default `/app/outputs`), create it (`os.makedirs` with
`exist_ok=True`, modelled as always succeeding), and join it with
`out or fallback` (Python falsy `""` falls back).  Returns the created
directory together with the resolved path. -/
def ensureOutputsPath (outputDirEnv : Option String) (out fallback : String) :
    String × String :=
  let outputDir := outputDirEnv.getD "/app/outputs"
  (outputDir, pyPathJoin outputDir (if out == "" then fallback else out))

/-- `plot_chart` (`data_tools.py` lines 27-44).

`fsRead` models `pd.read_csv` (`none` = missing file, raising
`FileNotFoundError`); indexing `df[x]` / `df[y]` raises when the column
is absent; `writeOk` models whether `plt.savefig` succeeds at the
resolved path.  The Python signature declares the default argument
`out = "plot.png"`; a call that omits `out` is the call with
`out = "plot.png"` here. -/
def plotChart (fsRead : String → Option CsvTable) (outputDirEnv : Option String)
    (writeOk : String → Bool) (file x y out : String) :
    Except ChartErr String :=
  match fsRead file with
  | none => .error (.fileNotFound file)
  | some df =>
    if !df.columns.contains x then .error (.columnNotFound x)
    else if !df.columns.contains y then .error (.columnNotFound y)
    else
      let path := (ensureOutputsPath outputDirEnv out "plot.png").2
      if writeOk path then .ok ("Saved plot to " ++ path)
      else .error (.ioError path)

/-! ## Websocket chat handler (`src/web_app.py`) -/

/-- A server→client frame of the web channel. -/
inductive Frame where
  | status (content : String)
  | response (content : String)
  | error (content : String)
deriving Repr, DecidableEq

/-- Handling of one received client frame `(type, content)` inside the
`while True` loop of `websocket_endpoint` (`web_app.py` lines 315-354):
frames whose type is not `"message"` are ignored; a `"message"` frame
produces a status frame followed by either a response frame or an error
frame, depending on whether processing the content through the agent
graph succeeds (`process` stands for the whole `try` block around
`graph.invoke` and response extraction). -/
def processEvent (process : String → Except String String)
    (ev : String × String) : List Frame :=
  if ev.1 == "message" then
    [Frame.status "Processing your request...",
     match process ev.2 with
     | .ok r => Frame.response r
     | .error e => Frame.error ("Error processing request: " ++ e)]
  else []

/-- `websocket_endpoint` (`web_app.py` lines 302-361) over a finite list
of received client frames.  Returns the frames sent to the client and
whether the server closed the channel before reading any client frame:
when the graph failed to initialize it sends a single error frame and
returns (the `finally` block then closes the socket); otherwise it keeps
looping over incoming frames, never closing on its own. -/
def websocketSession (graphInit : Bool) (process : String → Except String String)
    (events : List (String × String)) : List Frame × Bool :=
  if graphInit then
    ((events.map (processEvent process)).flatten, false)
  else
    ([Frame.error "Agent not initialized. Please check LLM configuration."], true)

/-- The three-tier choice among locally available Ollama models made by
lines 199-215 of `select_best_model`, as a standalone decision function:
first model whose name starts with the recommended model's family, else
first model matching a Capability-Catalog family, else the first listed
model. -/
def localChoice (models : List String) (recommended : String) : Option String :=
  match models.find? (fun m => pyStartswith m (splitColonHead recommended)) with
  | some m => some m
  | none =>
    match models.find?
        (fun m => toolCapableOllama.any (fun t => pyStartswith m (splitColonHead t))) with
    | some m => some m
    | none => models.head?

end TestAgent

namespace TestAgent

/-- `isPrefixOf` ignores everything from the first `':'` on when the
pattern itself is colon-free. -/
lemma isPrefixOf_takeWhile_colon (f : List Char) (hf : ∀ c ∈ f, c ≠ ':') :
    ∀ l : List Char,
      f.isPrefixOf (l.takeWhile (fun c => decide (c ≠ ':'))) = f.isPrefixOf l := by
  induction f with
  | nil => intro l; simp [List.isPrefixOf]
  | cons a as ih =>
    intro l
    cases l with
    | nil => simp
    | cons b bs =>
      by_cases hb : b = ':'
      · subst hb
        have ha : a ≠ ':' := hf a (List.mem_cons_self a as)
        simp [List.takeWhile_cons, List.isPrefixOf, ha]
      · have has : ∀ c ∈ as, c ≠ ':' := fun c hc => hf c (List.mem_cons_of_mem a hc)
        have ih' := ih has bs
        simp only [decide_not] at ih'
        simp [List.takeWhile_cons, List.isPrefixOf, hb, ih']

/-- Every character of `splitColonHead s` differs from `':'`. -/
lemma splitColonHead_no_colon (s : String) :
    ∀ c ∈ (splitColonHead s).data, c ≠ ':' := by
  intro c hc
  have := List.mem_takeWhile_imp (p := fun c => decide (c ≠ ':')) hc
  simpa using this

/-- The family check actually performed by the code
(`m.startswith(recommended.split(":")[0])`) coincides with a prefix
check against the portion of the model name before any `':'`. -/
lemma pyStartswith_splitColonHead (r m : String) :
    pyStartswith m (splitColonHead r)
      = pyStartswith (splitColonHead m) (splitColonHead r) := by
  unfold pyStartswith splitColonHead
  exact (isPrefixOf_takeWhile_colon _ (splitColonHead_no_colon r) m.data).symm

/-- When at least one local model is listed, `localChoice` picks one. -/
lemma localChoice_isSome (models : List String) (recommended : String)
    (hne : models ≠ []) : (localChoice models recommended).isSome = true := by
  unfold localChoice
  cases h1 : models.find? (fun m => pyStartswith m (splitColonHead recommended)) with
  | some m => rfl
  | none =>
    cases h2 : models.find?
        (fun m => toolCapableOllama.any (fun t => pyStartswith m (splitColonHead t))) with
    | some m => rfl
    | none =>
      cases models with
      | nil => exact absurd rfl hne
      | cons a as => rfl

/-- When no override is set, the remote-first branch yields nothing
(`prefer_local` or all remote flags down) and at least one local model
is listed, `select_best_model` returns `("ollama", ·)` of exactly the
`localChoice` pick. -/
lemma selectBestModel_eq_localChoice (providerPref modelPref : Option String)
    (available : AvailableLLMs) (recommendedModel : Option String)
    (preferLocal canConnect : Bool) (pullOk : String → Bool)
    (hov : (truthy providerPref && truthy modelPref) = false)
    (hremote : preferLocal = true ∨
      (available.openai = false ∧ available.anthropic = false ∧
       available.azure_openai = false))
    (hne : available.ollama ≠ []) :
    selectBestModel providerPref modelPref available recommendedModel
        preferLocal canConnect pullOk
      = (localChoice available.ollama (recommendedModel.getD "qwen2.5:7b")).map
          (fun m => ("ollama", m)) := by
  unfold selectBestModel
  rw [hov]
  have hrf : (if !preferLocal then
      if available.openai then some ("openai", "gpt-4o-mini")
      else if available.anthropic then some ("anthropic", "claude-3-haiku-20240307")
      else if available.azure_openai then some ("azure_openai", "gpt-4o-mini")
      else none
    else none) = (none : Option (String × String)) := by
    rcases hremote with h | ⟨h1, h2, h3⟩
    · simp [h]
    · simp [h1, h2, h3]
  rw [hrf]
  simp only []
  unfold localChoice
  cases hl : available.ollama with
  | nil => exact absurd hl hne
  | cons a as =>
    simp only [List.isEmpty_cons, Bool.not_false, if_true]
    cases h1 : (a :: as).find? (fun m => pyStartswith m
        (splitColonHead (recommendedModel.getD "qwen2.5:7b"))) with
    | some m => rfl
    | none =>
      cases h2 : (a :: as).find?
          (fun m => toolCapableOllama.any (fun t => pyStartswith m (splitColonHead t))) with
      | some m => rfl
      | none => rfl

/-- C2: whenever both the provider and the model preference are set
(non-empty), `select_best_model` returns exactly that pair, for every
availability set, capacity recommendation, locality preference,
reachability flag and provisioning outcome — no validation happens. -/
theorem select_override_returned_verbatim (p m : String)
    (hp : p ≠ "") (hm : m ≠ "")
    (available : AvailableLLMs) (recommendedModel : Option String)
    (preferLocal canConnect : Bool) (pullOk : String → Bool) :
    selectBestModel (some p) (some m) available recommendedModel
        preferLocal canConnect pullOk = some (p, m) := by
  unfold selectBestModel truthy
  simp [hp, hm]

/-- Witness for C2: the override `("ollama", "custom-model")` is
returned verbatim even though `"custom-model"` is in no catalog and
nothing is available. -/
theorem select_override_returned_verbatim_witness :
    selectBestModel (some "ollama") (some "custom-model")
        ⟨[], false, false, false⟩ none false false (fun _ => false)
      = some ("ollama", "custom-model") :=
  select_override_returned_verbatim "ollama" "custom-model"
    (by decide) (by decide) ⟨[], false, false, false⟩ none false false (fun _ => false)

/-- C3: with no override and `prefer_local` false, remote providers are
tried in the fixed order openai, anthropic, azure_openai; the first
available one is returned with its default model. -/
theorem select_remote_priority_order (providerPref modelPref : Option String)
    (available : AvailableLLMs) (recommendedModel : Option String)
    (canConnect : Bool) (pullOk : String → Bool)
    (hov : (truthy providerPref && truthy modelPref) = false) :
    (available.openai = true →
      selectBestModel providerPref modelPref available recommendedModel
          false canConnect pullOk = some ("openai", "gpt-4o-mini")) ∧
    (available.openai = false → available.anthropic = true →
      selectBestModel providerPref modelPref available recommendedModel
          false canConnect pullOk = some ("anthropic", "claude-3-haiku-20240307")) ∧
    (available.openai = false → available.anthropic = false →
      available.azure_openai = true →
      selectBestModel providerPref modelPref available recommendedModel
          false canConnect pullOk = some ("azure_openai", "gpt-4o-mini")) := by
  refine ⟨fun h1 => ?_, fun h1 h2 => ?_, fun h1 h2 h3 => ?_⟩
  · unfold selectBestModel
    simp [hov, h1]
  · unfold selectBestModel
    simp [hov, h1, h2]
  · unfold selectBestModel
    simp [hov, h1, h2, h3]

/-- Witness for C3: with only the anthropic key present the selector
returns anthropic's default model. -/
theorem select_remote_priority_order_witness :
    selectBestModel none none ⟨[], false, true, false⟩ none false false (fun _ => false)
      = some ("anthropic", "claude-3-haiku-20240307") :=
  (select_remote_priority_order none none ⟨[], false, true, false⟩ none false
    (fun _ => false) (by decide)).2.1 rfl rfl

/-- C9: `check_tool_support` is `false` for provider `azure_openai` on
every model name (the provider has no entry in `TOOL_CAPABLE_MODELS`),
yet the selector can return an azure_openai model, and the configuration
then reports `supports_tools = false`. -/
theorem azure_openai_tool_support_always_false :
    (∀ m : String, checkToolSupport "azure_openai" m = false) ∧
    selectBestModel none none ⟨[], false, false, true⟩ none false false (fun _ => false)
      = some ("azure_openai", "gpt-4o-mini") ∧
    getLLMConfig none none ⟨[], false, false, true⟩ none false false (fun _ => false)
      = .ok { provider := "azure_openai", model := "gpt-4o-mini", supportsTools := false } := by
  refine ⟨fun m => rfl, rfl, rfl⟩

/-- C4: with no override and `prefer_local` true, the selection among
locally listed models is three-tiered — first the model matching the
capacity-recommended family, else the first model whose family is in the
Capability Catalog, else the first listed model; with nothing listed but
a reachable runtime and a successful pull, the recommended model is
provisioned and returned.  The family test the code performs equals a
case-sensitive prefix match on the portion of the model name before any
`':'`. -/
theorem select_local_three_tiers (providerPref modelPref : Option String)
    (available : AvailableLLMs) (recommendedModel : Option String)
    (canConnect : Bool) (pullOk : String → Bool)
    (hov : (truthy providerPref && truthy modelPref) = false) :
    (∀ m, available.ollama.find? (fun x => pyStartswith x
        (splitColonHead (recommendedModel.getD "qwen2.5:7b"))) = some m →
      selectBestModel providerPref modelPref available recommendedModel
          true canConnect pullOk = some ("ollama", m)) ∧
    (available.ollama.find? (fun x => pyStartswith x
        (splitColonHead (recommendedModel.getD "qwen2.5:7b"))) = none →
      ∀ m, available.ollama.find? (fun x => toolCapableOllama.any
          (fun t => pyStartswith x (splitColonHead t))) = some m →
        selectBestModel providerPref modelPref available recommendedModel
            true canConnect pullOk = some ("ollama", m)) ∧
    (available.ollama.find? (fun x => pyStartswith x
        (splitColonHead (recommendedModel.getD "qwen2.5:7b"))) = none →
      available.ollama.find? (fun x => toolCapableOllama.any
          (fun t => pyStartswith x (splitColonHead t))) = none →
      available.ollama ≠ [] →
      selectBestModel providerPref modelPref available recommendedModel
          true canConnect pullOk = some ("ollama", available.ollama.headD "")) ∧
    (available.ollama = [] → canConnect = true →
      pullOk (recommendedModel.getD "qwen2.5:7b") = true →
      selectBestModel providerPref modelPref available recommendedModel
          true canConnect pullOk
        = some ("ollama", recommendedModel.getD "qwen2.5:7b")) ∧
    (∀ r m : String, pyStartswith m (splitColonHead r)
        = pyStartswith (splitColonHead m) (splitColonHead r)) := by
  refine ⟨fun m h => ?_, fun h1 m h2 => ?_, fun h1 h2 hne => ?_,
    fun hnil hcc hpull => ?_, pyStartswith_splitColonHead⟩
  · have hne : available.ollama ≠ [] :=
      List.ne_nil_of_mem (List.mem_of_find?_eq_some h)
    rw [selectBestModel_eq_localChoice providerPref modelPref available
      recommendedModel true canConnect pullOk hov (Or.inl rfl) hne]
    unfold localChoice
    rw [h]
    rfl
  · have hne : available.ollama ≠ [] :=
      List.ne_nil_of_mem (List.mem_of_find?_eq_some h2)
    rw [selectBestModel_eq_localChoice providerPref modelPref available
      recommendedModel true canConnect pullOk hov (Or.inl rfl) hne]
    unfold localChoice
    rw [h1, h2]
    rfl
  · rw [selectBestModel_eq_localChoice providerPref modelPref available
      recommendedModel true canConnect pullOk hov (Or.inl rfl) hne]
    unfold localChoice
    rw [h1, h2]
    cases hl : available.ollama with
    | nil => exact absurd hl hne
    | cons a as => rfl
  · unfold selectBestModel
    rw [hov]
    simp [hnil, hcc, hpull]

/-- Witness for C4: `"qwen2.5:14b"` matches the recommended family
`"qwen2.5"` and is selected. -/
theorem select_local_three_tiers_witness :
    selectBestModel none none ⟨["qwen2.5:14b"], false, false, false⟩
        (some "qwen2.5:7b") true false (fun _ => false)
      = some ("ollama", "qwen2.5:14b") :=
  (select_local_three_tiers none none ⟨["qwen2.5:14b"], false, false, false⟩
    (some "qwen2.5:7b") false (fun _ => false) (by decide)).1 "qwen2.5:14b" (by decide)

/-- C10: with no override, `prefer_local` false and no remote provider
available, the selector still returns a local Ollama model whenever one
is listed, and it is the very model the `prefer_local` branch's
three-tier rule (`localChoice`) would pick. -/
theorem select_no_remote_falls_back_to_local (providerPref modelPref : Option String)
    (available : AvailableLLMs) (recommendedModel : Option String)
    (canConnect : Bool) (pullOk : String → Bool)
    (hov : (truthy providerPref && truthy modelPref) = false)
    (ho : available.openai = false) (ha : available.anthropic = false)
    (hz : available.azure_openai = false)
    (hne : available.ollama ≠ []) :
    ∃ m, localChoice available.ollama (recommendedModel.getD "qwen2.5:7b") = some m ∧
      selectBestModel providerPref modelPref available recommendedModel
          false canConnect pullOk = some ("ollama", m) ∧
      selectBestModel providerPref modelPref available recommendedModel
          true canConnect pullOk = some ("ollama", m) := by
  have h1 := selectBestModel_eq_localChoice providerPref modelPref available
    recommendedModel false canConnect pullOk hov (Or.inr ⟨ho, ha, hz⟩) hne
  have h2 := selectBestModel_eq_localChoice providerPref modelPref available
    recommendedModel true canConnect pullOk hov (Or.inl rfl) hne
  obtain ⟨m, hm⟩ := Option.isSome_iff_exists.mp
    (localChoice_isSome available.ollama (recommendedModel.getD "qwen2.5:7b") hne)
  exact ⟨m, hm, by rw [h1, hm]; rfl, by rw [h2, hm]; rfl⟩

/-- Witness for C10: with every remote flag down and one (uncatalogued)
local model listed, both locality preferences return it. -/
theorem select_no_remote_falls_back_to_local_witness :
    ∃ m, localChoice ["mystery-model"] "qwen2.5:7b" = some m ∧
      selectBestModel none none ⟨["mystery-model"], false, false, false⟩
          none false false (fun _ => false) = some ("ollama", m) ∧
      selectBestModel none none ⟨["mystery-model"], false, false, false⟩
          none true false (fun _ => false) = some ("ollama", m) :=
  select_no_remote_falls_back_to_local none none
    ⟨["mystery-model"], false, false, false⟩ none false (fun _ => false)
    (by decide) rfl rfl rfl (by decide)

/-- C5 (amended): when every selection path is exhausted,
`select_best_model` yields no pair and `get_llm_config` fails with the
`ValueError`; `build_graph` however catches that failure and proceeds
with the environment-fallback configuration instead of aborting. -/
theorem select_exhausted_error_caught_by_build_graph
    (providerPref modelPref llmProviderEnv llmModelEnv : Option String)
    (available : AvailableLLMs) (recommendedModel : Option String)
    (preferLocal canConnect : Bool) (pullOk : String → Bool)
    (hov : (truthy providerPref && truthy modelPref) = false)
    (ho : available.openai = false) (ha : available.anthropic = false)
    (hz : available.azure_openai = false)
    (hnil : available.ollama = [])
    (hpull : canConnect = false ∨ pullOk (recommendedModel.getD "qwen2.5:7b") = false) :
    selectBestModel providerPref modelPref available recommendedModel
        preferLocal canConnect pullOk = none ∧
    getLLMConfig providerPref modelPref available recommendedModel
        preferLocal canConnect pullOk
      = .error "No LLM available! Please configure API keys or install Ollama." ∧
    buildGraphConfig llmProviderEnv llmModelEnv
        (getLLMConfig providerPref modelPref available recommendedModel
          preferLocal canConnect pullOk)
      = (llmProviderEnv.getD "ollama", llmModelEnv.getD "qwen2.5:7b", true) := by
  have hsel : selectBestModel providerPref modelPref available recommendedModel
      preferLocal canConnect pullOk = none := by
    unfold selectBestModel
    rw [hov]
    rcases hpull with h | h <;> simp [ho, ha, hz, hnil, h]
  have hcfg : getLLMConfig providerPref modelPref available recommendedModel
      preferLocal canConnect pullOk
      = .error "No LLM available! Please configure API keys or install Ollama." := by
    unfold getLLMConfig
    rw [hsel]
  refine ⟨hsel, hcfg, ?_⟩
  rw [hcfg]
  rfl

/-- Witness for the amended C5: pull failure with nothing else
available yields the error, yet `build_graph` proceeds with the
environment override as its fallback. -/
theorem select_exhausted_error_caught_by_build_graph_witness :
    selectBestModel none none ⟨[], false, false, false⟩ none true true
        (fun _ => false) = none ∧
    getLLMConfig none none ⟨[], false, false, false⟩ none true true
        (fun _ => false)
      = .error "No LLM available! Please configure API keys or install Ollama." ∧
    buildGraphConfig (some "openai") (some "gpt-4o")
        (getLLMConfig none none ⟨[], false, false, false⟩ none true true
          (fun _ => false))
      = ("openai", "gpt-4o", true) :=
  select_exhausted_error_caught_by_build_graph none none (some "openai")
    (some "gpt-4o") ⟨[], false, false, false⟩ none true true (fun _ => false)
    (by decide) rfl rfl rfl rfl (Or.inr rfl)

/-- Counterexample to C5 as stated: with every path exhausted the
selection error is raised but startup is not aborted — `build_graph`
swallows the failure and proceeds with the fallback configuration
`("ollama", "qwen2.5:7b")`, for an Ollama runtime that is unreachable
in this very scenario. -/
theorem startup_proceeds_after_no_provider :
    getLLMConfig none none ⟨[], false, false, false⟩ none false false
        (fun _ => false)
      = .error "No LLM available! Please configure API keys or install Ollama." ∧
    buildGraphConfig none none
        (getLLMConfig none none ⟨[], false, false, false⟩ none false false
          (fun _ => false))
      = ("ollama", "qwen2.5:7b", true) :=
  ⟨rfl, rfl⟩

/-- C6: when the model's first response carries zero tool-call
requests, the loop terminates after exactly one model invocation with
that response appended, so the returned history is one message longer
than the initial history. -/
theorem loop_zero_toolcalls_single_step (model : List Msg → Msg)
    (execTool : ToolCall → Msg) (init : List Msg) (fuel : Nat)
    (h : (model init).toolCalls = []) :
    runLoop (fuel + 1) model execTool init = some (init ++ [model init], 1) ∧
    (init ++ [model init]).length = init.length + 1 := by
  refine ⟨?_, by simp⟩
  unfold runLoop toolsCondition
  simp [h]

/-- Witness for C6: a stub answering without tool calls ends the run at
history length 2 with one model call. -/
theorem loop_zero_toolcalls_single_step_witness :
    runLoop 5 noToolModel stubExecTool [userMsg]
      = some ([userMsg] ++ [noToolModel [userMsg]], 1) ∧
    ([userMsg] ++ [noToolModel [userMsg]]).length = [userMsg].length + 1 :=
  loop_zero_toolcalls_single_step noToolModel stubExecTool [userMsg] 4 rfl

/-- C1: the graph built by `build_graph` carries no iteration cap — with
a model stub that always requests a tool, the loop is still cycling
through the model/tools nodes after any number of model invocations
(`runLoop` never reaches a terminal state, for every fuel bound), and no
`IterationLimitExceeded` failure exists anywhere in its codomain. -/
theorem loop_always_tool_never_terminates (execTool : ToolCall → Msg) :
    ∀ (fuel : Nat) (init : List Msg),
      runLoop fuel alwaysToolModel execTool init = none := by
  intro fuel
  induction fuel with
  | zero => intro init; rfl
  | succ n ih =>
    intro init
    unfold runLoop
    simp [toolsCondition, alwaysToolModel, ih]

/-- Counterexample to C7 as stated: on a successful run the tool's
return value is the sentence `"Saved plot to <path>"`, which is not the
resolved path itself. -/
theorem plot_chart_returns_message_not_path :
    plotChart (fun f => if f == "data.csv" then some ⟨["Date", "Value"]⟩ else none)
        none (fun _ => true) "data.csv" "Date" "Value" "plot.png"
      = .ok "Saved plot to /app/outputs/plot.png" ∧
    ("Saved plot to /app/outputs/plot.png" : String) ≠ "/app/outputs/plot.png" :=
  ⟨rfl, by decide⟩

/-- C7 (amended): the chart tool reads the tabular file, fails with
`FileNotFound` / `ColumnNotFound` / `IOError` on the respective failure,
resolves the output name (falling back to `"plot.png"` when empty, the
Python default argument being `"plot.png"`) under the configured output
directory, which it creates, and on success returns the message
`"Saved plot to <resolved path>"` containing the resolved path. -/
theorem plot_chart_error_and_output_contract
    (fsRead : String → Option CsvTable) (outputDirEnv : Option String)
    (writeOk : String → Bool) (file x y out : String) (df : CsvTable)
    (hdf : fsRead file = some df) :
    (∀ f, fsRead f = none →
      plotChart fsRead outputDirEnv writeOk f x y out = .error (.fileNotFound f)) ∧
    (df.columns.contains x = false →
      plotChart fsRead outputDirEnv writeOk file x y out = .error (.columnNotFound x)) ∧
    (df.columns.contains x = true → df.columns.contains y = false →
      plotChart fsRead outputDirEnv writeOk file x y out = .error (.columnNotFound y)) ∧
    (df.columns.contains x = true → df.columns.contains y = true →
      writeOk (ensureOutputsPath outputDirEnv out "plot.png").2 = false →
      plotChart fsRead outputDirEnv writeOk file x y out
        = .error (.ioError (ensureOutputsPath outputDirEnv out "plot.png").2)) ∧
    (df.columns.contains x = true → df.columns.contains y = true →
      writeOk (ensureOutputsPath outputDirEnv out "plot.png").2 = true →
      plotChart fsRead outputDirEnv writeOk file x y out
        = .ok ("Saved plot to " ++ (ensureOutputsPath outputDirEnv out "plot.png").2)) ∧
    (ensureOutputsPath outputDirEnv out "plot.png").1
      = outputDirEnv.getD "/app/outputs" ∧
    (ensureOutputsPath outputDirEnv "" "plot.png").2
      = pyPathJoin (outputDirEnv.getD "/app/outputs") "plot.png" ∧
    (ensureOutputsPath outputDirEnv "plot.png" "plot.png").2
      = pyPathJoin (outputDirEnv.getD "/app/outputs") "plot.png" := by
  refine ⟨fun f hf => ?_, fun hx => ?_, fun hx hy => ?_, fun hx hy hw => ?_,
    fun hx hy hw => ?_, rfl, rfl, rfl⟩ <;>
    · unfold plotChart
      simp_all

/-- Witness for the amended C7: a missing column is reported as
`ColumnNotFound`. -/
theorem plot_chart_error_and_output_contract_witness :
    plotChart (fun f => if f == "data.csv" then some ⟨["Date", "Value"]⟩ else none)
        (some "/tmp/out") (fun _ => true) "data.csv" "Missing" "Value" "plot.png"
      = .error (.columnNotFound "Missing") :=
  (plot_chart_error_and_output_contract
    (fun f => if f == "data.csv" then some ⟨["Date", "Value"]⟩ else none)
    (some "/tmp/out") (fun _ => true) "data.csv" "Missing" "Value" "plot.png"
    ⟨["Date", "Value"]⟩ rfl).2.1 rfl

/-- Counterexample to C8 as stated: when the agent graph failed to
initialize, the handler reports the failure with a `{type:"error"}`
frame but then closes the channel — the pending client message is never
read and no further attempt is possible on that connection. -/
theorem websocket_uninitialized_error_closes_channel :
    websocketSession false (fun s => .ok s) [("message", "hi")]
      = ([Frame.error "Agent not initialized. Please check LLM configuration."], true) :=
  rfl

/-- C8 (amended): when processing a received message fails, the handler
sends a `{type:"error"}` frame and keeps the channel open — the
remaining messages of the same connection are still processed and the
server does not close early; only the uninitialized-agent failure closes
the channel after its single error frame. -/
theorem websocket_processing_error_keeps_channel_open
    (process : String → Except String String) (m e : String)
    (rest : List (String × String))
    (h : process m = .error e) :
    websocketSession true process (("message", m) :: rest)
      = (Frame.status "Processing your request..."
          :: Frame.error ("Error processing request: " ++ e)
          :: (websocketSession true process rest).1, false) := by
  unfold websocketSession
  simp [processEvent, h]

/-- Witness for the amended C8: after a failed request the next request
on the same connection is still answered. -/
theorem websocket_processing_error_keeps_channel_open_witness :
    websocketSession true
        (fun s => if s == "boom" then .error "exploded" else .ok ("echo: " ++ s))
        [("message", "boom"), ("message", "hello")]
      = ([Frame.status "Processing your request...",
          Frame.error "Error processing request: exploded",
          Frame.status "Processing your request...",
          Frame.response "echo: hello"], false) :=
  websocket_processing_error_keeps_channel_open
    (fun s => if s == "boom" then .error "exploded" else .ok ("echo: " ++ s))
    "boom" "exploded" [("message", "hello")] rfl

end TestAgent
